import Mathlib

/-!
Verification of the Room Inventory & Reservation Consistency Engine of the
HotelSeaShore server (a Node/Express/Mongoose application).  The JavaScript
controllers and Mongoose models are shallowly embedded as pure Lean functions
over explicit database states (lists of documents).  Dates and money amounts
are embedded as `Int` (millisecond timestamps respectively plain numbers);
JavaScript truthiness of an optional field is modelled by `Option` plus an
explicit non-zero / non-empty test where the source tests truthiness.
-/

namespace HotelSeaShore

/-- A calendar date, as the generators read it off `new Date()`.  `month` and
`day` are 1-based: the source uses `getMonth() + 1` and `getDate()`. -/
structure Date where
  year : Nat
  month : Nat
  day : Nat
deriving DecidableEq

/-- JavaScript `s.padStart(w, "0")`: left-pad with zeros up to width `w`;
a string already at least `w` long is returned unchanged (never truncated). -/
def padStartZeros (w : Nat) (s : String) : String :=
  if s.length < w then String.mk (List.replicate (w - s.length) '0') ++ s else s

/-- JavaScript `s.slice(-n)` for `n > 0`: the last `n` characters
(the whole string when it is shorter than `n`). -/
def sliceLast (n : Nat) (s : String) : String :=
  String.mk (s.data.drop (s.data.length - n))

/-- The anchored regex test `^p` applied to `s` (for the literal digit
prefixes used here): `s` starts with `p`. -/
def strStartsWith (p s : String) : Bool :=
  p.data.isPrefixOf s.data

/-- JavaScript `parseInt(s, 10)` restricted to the unsigned strings it is fed
here (slices of booking numbers: no sign, no leading whitespace): parse the
longest prefix of decimal digits, `none` when there is none (`NaN`). -/
def parseIntOpt (s : String) : Option Nat :=
  let ds := s.data.takeWhile Char.isDigit
  if ds.isEmpty then none
  else some (ds.foldl (fun n c => n * 10 + (c.toNat - '0'.toNat)) 0)

/-- A document of the `Booking` collection (`src/models/Booking.js`).  Only
the fields the verified claims touch are embedded; `id` is the Mongo `_id`.
`bookingNo` and `fullName` are `Option` because legacy rows may miss them
(which is why the listing endpoints filter on them); a missing and a `null`
value behave identically in every query modelled here and are both `none`. -/
structure Booking where
  id : Nat
  hotelID : Int
  roomNumberID : String
  roomCategoryID : String
  checkInDate : Int
  checkOutDate : Int
  statusID : Nat
  bookingNo : Option String
  fullName : Option String
  totalBill : Int
  advancePayment : Int
  duePayment : Int
  serialNo : Nat
  canceledBy : Option String
  reason : Option String
  createdAt : Int
deriving DecidableEq

/-- The Mongo filter built by `checkBookingOverlap`
(`bookingController.js:12-25`): same (hotel, room, category) triple, not
cancelled (`statusID ≠ 255`), `checkInDate < newCheckOut`,
`checkOutDate > newCheckIn`, and `_id ≠ excludeBookingId` when one is given. -/
def overlapMatches (hotelID : Int) (roomNumberID roomCategoryID : String)
    (newCheckIn newCheckOut : Int) (excludeBookingId : Option Nat)
    (b : Booking) : Bool :=
  b.hotelID == hotelID && b.roomNumberID == roomNumberID &&
  b.roomCategoryID == roomCategoryID && b.statusID != 255 &&
  b.checkInDate < newCheckOut && b.checkOutDate > newCheckIn &&
  (match excludeBookingId with
   | some e => b.id != e
   | none => true)

/-- `checkBookingOverlap` (`bookingController.js:6-34`): `findOne` over the
collection with the filter above; returns the colliding booking, if any. -/
def checkBookingOverlap (db : List Booking) (hotelID : Int)
    (roomNumberID roomCategoryID : String) (checkInDate checkOutDate : Int)
    (excludeBookingId : Option Nat) : Option Booking :=
  db.find? (overlapMatches hotelID roomNumberID roomCategoryID
    checkInDate checkOutDate excludeBookingId)

/-- `generateSerialNo` (`bookingController.js:37-50`): the most recently
inserted booking's `serialNo + 1` (`findOne().sort({_id: -1})`, i.e. the last
element in insertion order), or 1 when the collection is empty. -/
def generateSerialNo (db : List Booking) : Nat :=
  match db.getLast? with
  | some lastBooking => lastBooking.serialNo + 1
  | none => 1

/-- The `YYMMDD` date prefix of `generateBookingNo`
(`bookingController.js:56-61`): last two digits of the year, zero-padded
month and day. -/
def dateCode (d : Date) : String :=
  sliceLast 2 (Nat.repr d.year) ++ padStartZeros 2 (Nat.repr d.month) ++
    padStartZeros 2 (Nat.repr d.day)

/-- One step of the serial scan of `generateBookingNo`
(`bookingController.js:70-79`): for a truthy `bookingNo`, parse its last two
characters and keep the maximum (a `NaN` parse compares false and is
ignored). -/
def serialScanStep (maxS : Nat) (b : Booking) : Nat :=
  match b.bookingNo with
  | some no =>
    if no != "" then
      match parseIntOpt (sliceLast 2 no) with
      | some serialNo => if serialNo > maxS then serialNo else maxS
      | none => maxS
    else maxS
  | none => maxS

/-- The serial scan of `generateBookingNo` (`bookingController.js:63-79`):
over the bookings whose `bookingNo` matches `^YYMMDD` (the regex query),
fold `serialScanStep` starting from 0. -/
def maxTodaySerial (today : Date) (db : List Booking) : Nat :=
  (db.filter (fun b =>
    match b.bookingNo with
    | some no => strStartsWith (dateCode today) no
    | none => false)).foldl serialScanStep 0

/-- `generateBookingNo` (`bookingController.js:52-86`): date prefix followed
by `(maxSerialNo + 1).toString().padStart(2, "0")`. -/
def generateBookingNo (today : Date) (db : List Booking) : String :=
  dateCode today ++ padStartZeros 2 (Nat.repr (maxTodaySerial today db + 1))

/-- JavaScript truthiness of an optional numeric field (`!x` fails for 0). -/
def truthyNum (v : Option Int) : Bool :=
  match v with
  | some n => n != 0
  | none => false

/-- JavaScript truthiness of an optional string field (`!x` fails for ""). -/
def truthyStr (v : Option String) : Bool :=
  match v with
  | some s => s != ""
  | none => false

/-- The request body of `POST /api/bookings` (fields the claims touch).
Optional fields model keys that may be absent from the JSON body. -/
structure BookingInput where
  fullName : String
  hotelID : Option Int
  roomNumberID : Option String
  roomCategoryID : Option String
  checkInDate : Option Int
  checkOutDate : Option Int
  totalBill : Int
  advancePayment : Int
  duePayment : Int
  statusID : Option Nat
  reference : Option String
deriving DecidableEq

/-- Error classes of the booking controller responses. -/
inductive BErr where
  | badRequest
  | conflict
  | notFound
  | validation
  | duplicateKey
deriving DecidableEq

deriving instance DecidableEq for Except

/-- The schema validators of `Booking.js` on the embedded fields: required
non-empty `fullName` and `bookingNo`, `checkOutDate > checkInDate`,
non-negative amounts, `advancePayment ≤ totalBill`, `statusID` in the enum
`{1, 2, 3, 255}`.  Mongoose runs these before the user `pre('save')` hook. -/
def validateBooking (b : Booking) : Bool :=
  truthyStr b.fullName &&
  b.checkOutDate > b.checkInDate &&
  b.totalBill ≥ 0 && b.advancePayment ≥ 0 &&
  b.advancePayment ≤ b.totalBill && b.duePayment ≥ 0 &&
  truthyStr b.bookingNo &&
  (b.statusID == 1 || b.statusID == 2 || b.statusID == 3 || b.statusID == 255)

/-- The `pre('save')` hook of `Booking.js:206-211`: when `totalBill` or
`advancePayment` was modified, recompute
`duePayment = max(0, totalBill - advancePayment)`.  On a freshly created
document every set path counts as modified. -/
def bookingPreSave (modifiedTotalBill modifiedAdvancePayment : Bool)
    (b : Booking) : Booking :=
  if modifiedTotalBill || modifiedAdvancePayment then
    { b with duePayment := max 0 (b.totalBill - b.advancePayment) }
  else b

/-- The unique indexes the insert can violate (`Booking.js`): `bookingNo`
is `unique: true`, `serialNo` is `unique` (its sparse-ness only matters for
rows missing a serial, which no modelled operation produces). -/
def uniqueViolation (db : List Booking) (b : Booking) : Bool :=
  db.any (fun x => x.bookingNo == b.bookingNo) ||
  db.any (fun x => x.serialNo == b.serialNo)

/-- `createBooking` (`bookingController.js:90-166`): validate the linkage
fields (JavaScript truthiness), run the overlap detector, generate
`serialNo`, resolve `bookingNo` (adopting the referenced booking's number
when `reference` matches an existing `bookingNo`), then `Booking.create`
(= validate, run the `pre('save')` hook, insert subject to unique indexes). -/
def createBooking (db : List Booking) (today : Date) (nowMs : Int)
    (nextId : Nat) (input : BookingInput) :
    Except BErr (List Booking × Booking) :=
  if !(truthyNum input.hotelID && truthyStr input.roomNumberID &&
       truthyStr input.roomCategoryID) then
    .error .badRequest
  else if !(input.checkInDate.isSome && input.checkOutDate.isSome) then
    .error .badRequest
  else
    let hid := input.hotelID.getD 0
    let rid := input.roomNumberID.getD ""
    let cid := input.roomCategoryID.getD ""
    let ci := input.checkInDate.getD 0
    let co := input.checkOutDate.getD 0
    match checkBookingOverlap db hid rid cid ci co none with
    | some _ => .error .conflict
    | none =>
      let serialNo := generateSerialNo db
      let bookingNo : String :=
        match input.reference with
        | some ref =>
          if ref != "" then
            match db.find? (fun b => b.bookingNo == some ref) with
            | some referenceBooking => referenceBooking.bookingNo.getD ref
            | none => generateBookingNo today db
          else generateBookingNo today db
        | none => generateBookingNo today db
      let bPre : Booking := {
        id := nextId, hotelID := hid, roomNumberID := rid,
        roomCategoryID := cid, checkInDate := ci, checkOutDate := co,
        statusID := input.statusID.getD 1,
        bookingNo := some bookingNo, fullName := some input.fullName,
        totalBill := input.totalBill,
        advancePayment := input.advancePayment,
        duePayment := input.duePayment, serialNo := serialNo,
        canceledBy := none, reason := none, createdAt := nowMs }
      if !validateBooking bPre then .error .validation
      else
        let bSaved := bookingPreSave true true bPre
        if uniqueViolation db bSaved then .error .duplicateKey
        else .ok (db ++ [bSaved], bSaved)

/-- The request body of `PUT /api/bookings/:id` (fields the claims touch);
a present key overwrites the stored field. -/
structure BookingUpdate where
  hotelID : Option Int
  roomNumberID : Option String
  roomCategoryID : Option String
  checkInDate : Option Int
  checkOutDate : Option Int
  totalBill : Option Int
  advancePayment : Option Int
  duePayment : Option Int
  statusID : Option Nat
deriving DecidableEq

/-- The field merge `findByIdAndUpdate` performs: present update keys
overwrite, absent ones keep the stored value.  `findByIdAndUpdate` does NOT
run the `pre('save')` hook, so `duePayment` is never recomputed here. -/
def applyBookingUpdate (u : BookingUpdate) (b : Booking) : Booking :=
  { b with
    hotelID := u.hotelID.getD b.hotelID,
    roomNumberID := u.roomNumberID.getD b.roomNumberID,
    roomCategoryID := u.roomCategoryID.getD b.roomCategoryID,
    checkInDate := u.checkInDate.getD b.checkInDate,
    checkOutDate := u.checkOutDate.getD b.checkOutDate,
    totalBill := u.totalBill.getD b.totalBill,
    advancePayment := u.advancePayment.getD b.advancePayment,
    duePayment := u.duePayment.getD b.duePayment,
    statusID := u.statusID.getD b.statusID }

/-- `updateBooking` (`bookingController.js:170-251`): load the booking; when
dates or room identity are supplied (JavaScript truthiness), re-run the
overlap detector on the merged values excluding the booking's own id; then
`findByIdAndUpdate` (no `pre('save')` hook). -/
def updateBooking (db : List Booking) (id : Nat) (u : BookingUpdate) :
    Except BErr (List Booking × Booking) :=
  match db.find? (fun b => b.id == id) with
  | none => .error .notFound
  | some existingBooking =>
    let datesChanged := u.checkInDate.isSome || u.checkOutDate.isSome
    let roomChanged := u.hotelID.isSome || u.roomNumberID.isSome ||
      u.roomCategoryID.isSome
    let conflict :=
      if datesChanged || roomChanged then
        checkBookingOverlap db
          (u.hotelID.getD existingBooking.hotelID)
          (u.roomNumberID.getD existingBooking.roomNumberID)
          (u.roomCategoryID.getD existingBooking.roomCategoryID)
          (u.checkInDate.getD existingBooking.checkInDate)
          (u.checkOutDate.getD existingBooking.checkOutDate)
          (some id)
      else none
    match conflict with
    | some _ => .error .conflict
    | none =>
      let updated := applyBookingUpdate u existingBooking
      .ok (db.map (fun b => if b.id == id then updated else b), updated)

/-- The document rewrite of `updateStatusID` (`bookingController.js:396-423`):
`statusID := 255` and the supplied `canceledBy` / `reason` (an absent key is
stripped by Mongoose and keeps the stored value).  Applied to every row whose
`_id` matches; no row is removed. -/
def cancelApply (db : List Booking) (id : Nat)
    (canceledBy reason : Option String) : List Booking :=
  db.map (fun b =>
    if b.id == id then
      let cb := match canceledBy with
        | some v => some v
        | none => b.canceledBy
      let rs := match reason with
        | some v => some v
        | none => b.reason
      { b with statusID := 255, canceledBy := cb, reason := rs }
    else b)

/-- `updateStatusID` (`bookingController.js:396-423`): `findByIdAndUpdate`
setting `statusID = 255`, `canceledBy`, `reason`; 404 when the id resolves to
no booking. -/
def updateStatusID (db : List Booking) (id : Nat)
    (canceledBy reason : Option String) : Except BErr (List Booking) :=
  match db.find? (fun b => b.id == id) with
  | none => .error .notFound
  | some _ => .ok (cancelApply db id canceledBy reason)

/-- The booking used to re-book a room with exactly booking `A`'s triple and
dates (claim C4's `B`); payment fields are immaterial to the claim. -/
def rebookInput (A : Booking) : BookingInput := {
  fullName := "Guest",
  hotelID := some A.hotelID,
  roomNumberID := some A.roomNumberID,
  roomCategoryID := some A.roomCategoryID,
  checkInDate := some A.checkInDate,
  checkOutDate := some A.checkOutDate,
  totalBill := 0, advancePayment := 0, duePayment := 0,
  statusID := none, reference := none }

/-- The booking document `createBooking` persists for `rebookInput A`
against state `db` once the overlap check passes: A's triple and dates, a
generated number and serial, and the save hook's `duePayment`. -/
def rebookSaved (A : Booking) (db : List Booking) (today : Date)
    (nowMs : Int) (nextId : Nat) : Booking :=
  bookingPreSave true true {
    id := nextId, hotelID := A.hotelID, roomNumberID := A.roomNumberID,
    roomCategoryID := A.roomCategoryID, checkInDate := A.checkInDate,
    checkOutDate := A.checkOutDate, statusID := 1,
    bookingNo := some (generateBookingNo today db),
    fullName := some "Guest", totalBill := 0, advancePayment := 0,
    duePayment := 0, serialNo := generateSerialNo db,
    canceledBy := none, reason := none, createdAt := nowMs }

/-- The Mongo filter of `getBookings` / `getBookingsByHotelId`
(`bookingController.js:258-262, 301-306`): `statusID ≠ 255` and, for
`fullName` and `bookingNo`, `{ $exists: true, $ne: null, $ne: "" }` — a
JavaScript object literal whose duplicate `$ne` key collapses to
`{ $exists: true, $ne: "" }`. -/
def mongoListingFilter (b : Booking) : Bool :=
  b.statusID != 255 &&
  (b.fullName.isSome && b.fullName != some "") &&
  (b.bookingNo.isSome && b.bookingNo != some "")

/-- The in-memory post-filter of the listing endpoints
(`bookingController.js:267-272, 311-316`): keep rows whose `fullName` and
`bookingNo` are truthy (the `_id` check always passes for stored rows). -/
def validRowFilter (b : Booking) : Bool :=
  truthyStr b.fullName && truthyStr b.bookingNo

/-- Insertion step of the `createdAt` descending sort. -/
def insertByCreatedAtDesc (b : Booking) : List Booking → List Booking
  | [] => [b]
  | x :: xs =>
    if b.createdAt ≥ x.createdAt then b :: x :: xs
    else x :: insertByCreatedAtDesc b xs

/-- The `.sort({ createdAt: -1 })` of the listing queries, modelled as an
insertion sort (only membership matters to the claims). -/
def sortByCreatedAtDesc (l : List Booking) : List Booking :=
  l.foldr insertByCreatedAtDesc []

/-- `getBookings` (`bookingController.js:255-279`): Mongo filter, sort,
then the in-memory post-filter; never an error for filtered-out rows. -/
def getBookings (db : List Booking) : List Booking :=
  (sortByCreatedAtDesc (db.filter mongoListingFilter)).filter validRowFilter

/-- `getBookingsByHotelId` (`bookingController.js:286-328`): same pipeline
scoped to one numeric `hotelID`; 404 when the final list is empty. -/
def getBookingsByHotelId (db : List Booking) (hotelID : Int) :
    Except BErr (List Booking) :=
  let validBookings :=
    (sortByCreatedAtDesc (db.filter (fun b =>
      b.hotelID == hotelID && mongoListingFilter b))).filter validRowFilter
  if validBookings.isEmpty then .error .notFound
  else .ok validBookings

/-- Property holder for the `.ok` case of a listing result. -/
def listingOk : Except BErr (List Booking) → (List Booking → Prop) → Prop
  | .ok l, P => P l
  | .error _, _ => True

/-- An embedded room (`RoomNumberSchema` of `models/Hotel.js`); `id` is the
subdocument `_id`.  Fields the claims do not touch are omitted. -/
structure Room where
  id : Nat
  name : String
  status : String
  images : List String
deriving DecidableEq

/-- An embedded category (`RoomCategorySchema` of `models/Hotel.js`). -/
structure Category where
  id : Nat
  name : String
  images : List String
  roomNumbers : List Room
deriving DecidableEq

/-- A `Hotel` document (`HotelSchema` of `models/Hotel.js`). -/
structure Hotel where
  hotelID : Int
  hotelName : String
  images : List String
  roomCategories : List Category
  totalRooms : Nat
  availableRooms : Nat
deriving DecidableEq

/-- The virtual `calculatedTotalRooms` (`Hotel.js`): fold over the
categories adding `category.roomNumbers.length`. -/
def calculatedTotalRooms (h : Hotel) : Nat :=
  h.roomCategories.foldl
    (fun total category => total + category.roomNumbers.length) 0

/-- The virtual `calculatedAvailableRooms` (`Hotel.js`): fold adding the
count of rooms whose `status === "available"`. -/
def calculatedAvailableRooms (h : Hotel) : Nat :=
  h.roomCategories.foldl
    (fun total category =>
      total + (category.roomNumbers.filter
        (fun room => room.status == "available")).length) 0

/-- The `pre('save')` hook of `HotelSchema`: every save overwrites
`totalRooms` and `availableRooms` with the virtuals computed from the
in-memory tree. -/
def saveHotel (h : Hotel) : Hotel :=
  { h with
    totalRooms := calculatedTotalRooms h,
    availableRooms := calculatedAvailableRooms h }

/-- The room count the specification states: the number of rooms across all
categories of the hotel. -/
def totalRoomCount (h : Hotel) : Nat :=
  (h.roomCategories.map (fun c => c.roomNumbers.length)).sum

/-- The available count the specification states: the number of rooms whose
status is `available`. -/
def availableRoomCount (h : Hotel) : Nat :=
  (h.roomCategories.map (fun c =>
    (c.roomNumbers.filter (fun r => r.status == "available")).length)).sum

/-- The stored counters agree with the specification's counts. -/
def roomCountInvariant (h : Hotel) : Prop :=
  h.totalRooms = totalRoomCount h ∧ h.availableRooms = availableRoomCount h

/-- Error classes of the hotel controller responses. -/
inductive HErr where
  | notFound
  | conflict
deriving DecidableEq

/-- Images supplied in a request body: either an array of URL strings or a
single URL string (`Array.isArray(req.body.images) ? ... : [req.body.images]`). -/
inductive ImagesBody where
  | arr (urls : List String)
  | single (url : String)
deriving DecidableEq

/-- Image list stored by the CREATE operations (`createHotel:80-87`,
`addCategory:354-360`, `addRoom:584-590`): uploaded file URLs verbatim, else
the body URLs verbatim — neither branch truncates. -/
def createImages (files : List String) (body : Option ImagesBody)
    (current : List String) : List String :=
  if files != [] then files
  else
    match body with
    | some (.arr urls) => urls
    | some (.single url) => [url]
    | none => current

/-- Image list computed by the UPDATE operations (`updateHotel:262-272`,
`updateCategory:492-501`, `updateRoom:748-757`): uploaded files are merged
after the existing images and the result truncated to 3; body URLs replace
the list, truncated to 3; `none` when the request carries no images. -/
def updateImages (files : List String) (body : Option ImagesBody)
    (existing : List String) : Option (List String) :=
  if files != [] then some ((existing ++ files).take 3)
  else
    match body with
    | some (.arr urls) => some (urls.take 3)
    | some (.single url) => some [url]
    | none => none

/-- `createHotel` (`hotelController.js:76-141`): set the images from the
request, assign the generated `hotelID`, and `Hotel.create` (which runs the
counter-recomputing save hook). -/
def createHotel (files : List String) (body : Option ImagesBody)
    (hotelData : Hotel) (newHotelID : Int) : Hotel :=
  saveHotel { hotelData with
    images := createImages files body hotelData.images,
    hotelID := newHotelID }

/-- The request body of `PUT /api/hotels/:id` (fields the claims touch);
`Object.assign(hotel, updateData)` then `hotel.save()`. -/
structure HotelUpdate where
  hotelName : Option String
  roomCategories : Option (List Category)
  totalRooms : Option Nat
  availableRooms : Option Nat
deriving DecidableEq

/-- `updateHotel` (`hotelController.js:241-304`). -/
def updateHotel (h : Hotel) (files : List String) (body : Option ImagesBody)
    (u : HotelUpdate) : Hotel :=
  saveHotel { h with
    hotelName := u.hotelName.getD h.hotelName,
    images := (updateImages files body h.images).getD h.images,
    roomCategories := u.roomCategories.getD h.roomCategories,
    totalRooms := u.totalRooms.getD h.totalRooms,
    availableRooms := u.availableRooms.getD h.availableRooms }

/-- `addCategory` (`hotelController.js:349-422`): set the category images
from the request, reject with 409 when a category of that name exists, else
push and save. -/
def addCategory (h : Hotel) (files : List String) (body : Option ImagesBody)
    (categoryData : Category) : Except HErr Hotel :=
  let categoryData := { categoryData with
    images := createImages files body categoryData.images }
  if h.roomCategories.any (fun cat => cat.name == categoryData.name) then
    .error .conflict
  else
    .ok (saveHotel { h with
      roomCategories := h.roomCategories ++ [categoryData] })

/-- The request body of a category update (fields the claims touch). -/
structure CategoryUpdate where
  name : Option String
deriving DecidableEq

/-- `updateCategory` (`hotelController.js:461-523`): locate the category by
subdocument id, `Object.assign` the update (images merged per
`updateImages`), save.  No name-uniqueness check is performed. -/
def updateCategory (h : Hotel) (categoryId : Nat) (files : List String)
    (body : Option ImagesBody) (u : CategoryUpdate) : Except HErr Hotel :=
  match h.roomCategories.find? (fun cat => cat.id == categoryId) with
  | none => .error .notFound
  | some category =>
    let category' := { category with
      name := u.name.getD category.name,
      images := (updateImages files body category.images).getD
        category.images }
    .ok (saveHotel { h with
      roomCategories := h.roomCategories.map (fun cat =>
        if cat.id == categoryId then category' else cat) })

/-- `deleteCategory` (`hotelController.js:530-568`): locate, `remove()`,
save. -/
def deleteCategory (h : Hotel) (categoryId : Nat) : Except HErr Hotel :=
  match h.roomCategories.find? (fun cat => cat.id == categoryId) with
  | none => .error .notFound
  | some _ =>
    .ok (saveHotel { h with
      roomCategories := h.roomCategories.filter (fun cat =>
        cat.id != categoryId) })

/-- `addRoom` (`hotelController.js:579-659`): set the room images from the
request, locate the category, reject with 409 when a room of that name
exists in it, else push and save. -/
def addRoom (h : Hotel) (categoryId : Nat) (files : List String)
    (body : Option ImagesBody) (roomData : Room) : Except HErr Hotel :=
  let roomData := { roomData with
    images := createImages files body roomData.images }
  match h.roomCategories.find? (fun cat => cat.id == categoryId) with
  | none => .error .notFound
  | some category =>
    if category.roomNumbers.any (fun room => room.name == roomData.name) then
      .error .conflict
    else
      .ok (saveHotel { h with
        roomCategories := h.roomCategories.map (fun cat =>
          if cat.id == categoryId then
            { cat with roomNumbers := cat.roomNumbers ++ [roomData] }
          else cat) })

/-- The request body of a room update (fields the claims touch). -/
structure RoomUpdate where
  name : Option String
  status : Option String
deriving DecidableEq

/-- `updateRoom` (`hotelController.js:707-781`): locate category and room by
subdocument ids, `Object.assign` the update (images merged per
`updateImages`), save.  No name-uniqueness check is performed. -/
def updateRoom (h : Hotel) (categoryId roomId : Nat) (files : List String)
    (body : Option ImagesBody) (u : RoomUpdate) : Except HErr Hotel :=
  match h.roomCategories.find? (fun cat => cat.id == categoryId) with
  | none => .error .notFound
  | some category =>
    match category.roomNumbers.find? (fun room => room.id == roomId) with
    | none => .error .notFound
    | some room =>
      let room' := { room with
        name := u.name.getD room.name,
        status := u.status.getD room.status,
        images := (updateImages files body room.images).getD room.images }
      .ok (saveHotel { h with
        roomCategories := h.roomCategories.map (fun cat =>
          if cat.id == categoryId then
            { cat with roomNumbers := cat.roomNumbers.map (fun r =>
              if r.id == roomId then room' else r) }
          else cat) })

/-- `deleteRoom` (`hotelController.js:788-834`): locate category and room,
`remove()`, save. -/
def deleteRoom (h : Hotel) (categoryId roomId : Nat) : Except HErr Hotel :=
  match h.roomCategories.find? (fun cat => cat.id == categoryId) with
  | none => .error .notFound
  | some category =>
    match category.roomNumbers.find? (fun room => room.id == roomId) with
    | none => .error .notFound
    | some _ =>
      .ok (saveHotel { h with
        roomCategories := h.roomCategories.map (fun cat =>
          if cat.id == categoryId then
            { cat with roomNumbers := cat.roomNumbers.filter (fun r =>
              r.id != roomId) }
          else cat) })

/-- Property holder for the `.ok` case of a hotel mutation. -/
def invariantOnOk : Except HErr Hotel → Prop
  | .ok h => roomCountInvariant h
  | .error _ => True

/-- The `YYYYMMDD` string of the order-number generator
(`models/restaurant/Order.js:122,127`): `toISOString().slice(0, 10)` with the
hyphens removed, i.e. 4-digit year, 2-digit month, 2-digit day. -/
def orderDateStr (d : Date) : String :=
  padStartZeros 4 (Nat.repr d.year) ++ padStartZeros 2 (Nat.repr d.month) ++
    padStartZeros 2 (Nat.repr d.day)

/-- The body of the `OrderSchema.pre('save')` generator
(`Order.js:106-133`): on a successful count of today's orders,
`ORD-YYYYMMDD-` + `String(count + 1).padStart(4, "0")`; when the count query
throws, `ORD-YYYYMMDD-` + `String(Date.now()).slice(-4)`. -/
def generateOrderNumber (d : Date) (countResult : Except Unit Nat)
    (timestampMs : Nat) : String :=
  match countResult with
  | .ok count =>
    "ORD-" ++ orderDateStr d ++ "-" ++
      padStartZeros 4 (Nat.repr (count + 1))
  | .error _ =>
    "ORD-" ++ orderDateStr d ++ "-" ++ sliceLast 4 (Nat.repr timestampMs)

/-- The `orderNumber` field after the `pre('save')` hook runs: an already
truthy `orderNumber` is kept, otherwise one is generated; the hook always
calls `next()`, so the save proceeds in every case. -/
def orderNumberAfterSave (existing : Option String) (d : Date)
    (countResult : Except Unit Nat) (timestampMs : Nat) : String :=
  match existing with
  | some s => if s != "" then s else generateOrderNumber d countResult timestampMs
  | none => generateOrderNumber d countResult timestampMs

/-- The order-number format the specification states for a successful count
(claim C9), written from its words: `'ORD-'` + today's date as `YYYYMMDD` +
`'-'` + (the count of orders already created today, plus one) zero-padded to
4 digits. -/
def specOrderNumber (d : Date) (todayCount : Nat) : String :=
  "ORD-" ++ orderDateStr d ++ "-" ++ padStartZeros 4 (Nat.repr (todayCount + 1))

/-- The fallback format the specification states (claim C9): `'ORD-'` +
`YYYYMMDD` + `'-'` + the last 4 digits of the current timestamp. -/
def specFallbackOrderNumber (d : Date) (timestampMs : Nat) : String :=
  "ORD-" ++ orderDateStr d ++ "-" ++ sliceLast 4 (Nat.repr timestampMs)

/-! Concrete documents and requests used by the concrete scenarios. -/

/-- The concrete "today" (2026-10-11, date prefix `261011`). -/
def d26 : Date := { year := 2026, month := 10, day := 11 }

/-- A stored booking: room 101 of category DLX of hotel 1, interval
`[100, 200)`, bill 400 with advance 100 and due 300. -/
def bkAlice : Booking := {
  id := 1, hotelID := 1, roomNumberID := "101", roomCategoryID := "DLX",
  checkInDate := 100, checkOutDate := 200, statusID := 1,
  bookingNo := some "25060101", fullName := some "Alice",
  totalBill := 400, advancePayment := 100, duePayment := 300,
  serialNo := 1, canceledBy := none, reason := none, createdAt := 0 }

/-- A `PUT /api/bookings/:id` body carrying only `totalBill: 500`. -/
def updTotalBill500 : BookingUpdate := {
  hotelID := none, roomNumberID := none, roomCategoryID := none,
  checkInDate := none, checkOutDate := none,
  totalBill := some 500, advancePayment := none, duePayment := none,
  statusID := none }

/-- A stored booking holding today's 99th booking number. -/
def bk99 : Booking :=
  { bkAlice with id := 2, bookingNo := some "26101199", serialNo := 2 }

/-- A stored booking holding today's 5th booking number. -/
def bk05 : Booking :=
  { bkAlice with id := 3, bookingNo := some "26101105", serialNo := 3 }

/-- A `POST /api/bookings` body whose `reference` equals `bkAlice`'s
`bookingNo` and whose room (102) does not collide with it. -/
def refInput : BookingInput := {
  fullName := "Bob", hotelID := some 1, roomNumberID := some "102",
  roomCategoryID := some "DLX", checkInDate := some 100,
  checkOutDate := some 200, totalBill := 500, advancePayment := 0,
  duePayment := 500, statusID := none, reference := some "25060101" }

/-- The same create request without a `reference`. -/
def freshInput : BookingInput := { refInput with reference := none }

/-- The booking `createBooking` persists for `freshInput` against
`[bkAlice]` on `d26`: generated number `26101101`, serial 2, due 500. -/
def bkFresh : Booking := {
  id := 2, hotelID := 1, roomNumberID := "102", roomCategoryID := "DLX",
  checkInDate := 100, checkOutDate := 200, statusID := 1,
  bookingNo := some "26101101", fullName := some "Bob",
  totalBill := 500, advancePayment := 0, duePayment := 500,
  serialNo := 2, canceledBy := none, reason := none, createdAt := 0 }

/-- Category "A" (empty) of the duplicate-name scenario. -/
def catA : Category := { id := 1, name := "A", images := [], roomNumbers := [] }

/-- Category "B" (empty) of the duplicate-name scenario. -/
def catB : Category := { id := 2, name := "B", images := [], roomNumbers := [] }

/-- A hotel holding the categories "A" and "B". -/
def hotelAB : Hotel := {
  hotelID := 1, hotelName := "Sea Shore", images := [],
  roomCategories := [catA, catB], totalRooms := 0, availableRooms := 0 }

/-- An available room named 101. -/
def roomW : Room := { id := 1, name := "101", status := "available", images := [] }

/-- A category "A" holding room 101. -/
def catW : Category := { id := 1, name := "A", images := [], roomNumbers := [roomW] }

/-- A hotel holding `catW`. -/
def hotelW : Hotel := {
  hotelID := 2, hotelName := "Sea Shore Annex", images := [],
  roomCategories := [catW], totalRooms := 1, availableRooms := 1 }

/-- An empty hotel body, as sent to `POST /api/hotels`. -/
def hotelSeed : Hotel := {
  hotelID := 0, hotelName := "Sea Shore", images := [],
  roomCategories := [], totalRooms := 0, availableRooms := 0 }

/-- `hotelAB` after category 2 has been renamed to "A". -/
def hotelABdup : Hotel :=
  { hotelAB with roomCategories := [catA, { catB with name := "A" }] }

end HotelSeaShore

namespace HotelSeaShore

/-- C1: the overlap detector reports a conflict if and only if some stored
booking shares the (hotelID, roomNumberID, roomCategoryID) triple, is not
cancelled, differs from the excluded id, and satisfies
`checkInDate < checkOut ∧ checkOutDate > checkIn`; and a booking that is
back-to-back with the candidate (its check-out equals the candidate's
check-in, or its check-in equals the candidate's check-out) never matches the
conflict filter. -/
theorem overlapMatches_iff (hid : Int) (rid cid : String) (ci co : Int)
    (ex : Option Nat) (b : Booking) :
    overlapMatches hid rid cid ci co ex b = true ↔
      (b.hotelID = hid ∧ b.roomNumberID = rid ∧ b.roomCategoryID = cid ∧
       b.statusID ≠ 255 ∧ (∀ e, ex = some e → b.id ≠ e) ∧
       b.checkInDate < co ∧ b.checkOutDate > ci) := by
  cases ex <;>
    · simp only [overlapMatches, Bool.and_eq_true, beq_iff_eq, bne_iff_ne,
        decide_eq_true_eq, and_assoc, Bool.and_true, Option.some.injEq,
        forall_eq', reduceCtorEq, false_implies, forall_const, true_and]
      try tauto

/-- C1: the overlap detector reports a conflict if and only if some stored
booking shares the (hotelID, roomNumberID, roomCategoryID) triple, is not
cancelled, differs from the excluded id, and satisfies
`checkInDate < checkOut ∧ checkOutDate > checkIn`; and a booking that is
back-to-back with the candidate (its check-out equals the candidate's
check-in, or its check-in equals the candidate's check-out) never matches the
conflict filter. -/
theorem overlap_detector_iff (db : List Booking) (hid : Int) (rid cid : String)
    (ci co : Int) (ex : Option Nat) :
    ((checkBookingOverlap db hid rid cid ci co ex).isSome ↔
      ∃ b ∈ db, b.hotelID = hid ∧ b.roomNumberID = rid ∧
        b.roomCategoryID = cid ∧ b.statusID ≠ 255 ∧
        (∀ e, ex = some e → b.id ≠ e) ∧
        b.checkInDate < co ∧ b.checkOutDate > ci)
    ∧ (∀ b : Booking, b.checkOutDate = ci ∨ b.checkInDate = co →
        overlapMatches hid rid cid ci co ex b = false) := by
  constructor
  · rw [checkBookingOverlap, List.find?_isSome]
    constructor
    · rintro ⟨b, hb, hm⟩
      exact ⟨b, hb, (overlapMatches_iff hid rid cid ci co ex b).mp hm⟩
    · rintro ⟨b, hb, hm⟩
      exact ⟨b, hb, (overlapMatches_iff hid rid cid ci co ex b).mpr hm⟩
  · rintro b (h | h) <;> simp [overlapMatches, h]

/-- Witness for the back-to-back half of C1 at a concrete booking whose
check-out equals the candidate's check-in. -/
theorem overlap_detector_iff_witness :
    overlapMatches 1 "101" "DLX" 10 20 none
      { id := 7, hotelID := 1, roomNumberID := "101", roomCategoryID := "DLX",
        checkInDate := 0, checkOutDate := 10, statusID := 1,
        bookingNo := some "25060101", fullName := some "Alice",
        totalBill := 400, advancePayment := 100, duePayment := 300,
        serialNo := 1, canceledBy := none, reason := none,
        createdAt := 0 } = false :=
  (overlap_detector_iff [] 1 "101" "DLX" 10 20 none).2 _ (Or.inl rfl)

/-- C2: fails on the code.  `updateBooking` persists through
`findByIdAndUpdate`, which does not run the `pre('save')` hook, so updating
`totalBill` from 400 to 500 (advance 100) leaves the stored `duePayment` at
300 instead of `max(0, 500 - 100) = 400`. -/
theorem duePayment_stale_after_update :
    updateBooking [bkAlice] 1 updTotalBill500 =
      .ok ([{ bkAlice with totalBill := 500 }],
        { bkAlice with totalBill := 500 })
    ∧ ({ bkAlice with totalBill := 500 } : Booking).duePayment = 300
    ∧ max 0 (({ bkAlice with totalBill := 500 } : Booking).totalBill -
        ({ bkAlice with totalBill := 500 } : Booking).advancePayment) = 400 := by
  decide

/-- C7: fails on the code.  `createHotel` stores a body image list verbatim:
four URLs supplied with the create are all persisted, violating the ≤ 3 cap. -/
theorem createHotel_images_uncapped :
    (createHotel [] (some (.arr ["u1", "u2", "u3", "u4"])) hotelSeed 1).images =
      ["u1", "u2", "u3", "u4"]
    ∧ ((createHotel [] (some (.arr ["u1", "u2", "u3", "u4"]))
        hotelSeed 1).images).length = 4 := by
  decide

/-- C8: fails on the code.  A `reference` matching `bkAlice`'s `bookingNo`
makes `createBooking` adopt that number, and the insert then violates the
unique index on `bookingNo`, so nothing is persisted; without a reference the
same request persists under a freshly generated number. -/
theorem reference_adoption_duplicate_key :
    ((List.find? (fun b => b.bookingNo == some "25060101") [bkAlice]).isSome
      = true)
    ∧ createBooking [bkAlice] d26 0 2 refInput = .error .duplicateKey
    ∧ createBooking [bkAlice] d26 0 2 freshInput =
        .ok ([bkAlice, bkFresh], bkFresh) := by
  decide

/-- C6: fails on the code as stated.  `updateCategory` performs no
name-uniqueness check: renaming category "B" to "A" succeeds although a
category "A" already exists in the hotel, leaving two categories named "A". -/
theorem updateCategory_rename_no_conflict :
    (hotelAB.roomCategories.any (fun c => c.name == "A")) = true
    ∧ updateCategory hotelAB 2 [] none { name := some "A" } = .ok hotelABdup
    ∧ (hotelABdup.roomCategories.filter (fun c => c.name == "A")).length = 2 := by
  decide

theorem foldl_add_eq_sum {α : Type} (f : α → Nat) (l : List α) (a : Nat) :
    l.foldl (fun t x => t + f x) a = a + (l.map f).sum := by
  induction l generalizing a with
  | nil => simp
  | cons x xs ih => simp [ih (a + f x)]; omega

theorem calculatedTotalRooms_eq (h : Hotel) :
    calculatedTotalRooms h = totalRoomCount h := by
  simpa [calculatedTotalRooms, totalRoomCount] using
    foldl_add_eq_sum (fun c : Category => c.roomNumbers.length)
      h.roomCategories 0

theorem calculatedAvailableRooms_eq (h : Hotel) :
    calculatedAvailableRooms h = availableRoomCount h := by
  simpa [calculatedAvailableRooms, availableRoomCount] using
    foldl_add_eq_sum
      (fun c : Category =>
        (c.roomNumbers.filter (fun r => r.status == "available")).length)
      h.roomCategories 0

theorem saveHotel_invariant (h : Hotel) : roomCountInvariant (saveHotel h) :=
  ⟨calculatedTotalRooms_eq h, calculatedAvailableRooms_eq h⟩

/-- C3: every mutation of the hotel aggregate persists through the save hook,
so the stored `totalRooms` equals the number of rooms across all categories
and `availableRooms` the number of rooms with status `available` — also for
mutations that do not touch rooms. -/
theorem room_counts_recomputed_on_save (h : Hotel) (files : List String)
    (body : Option ImagesBody) (hotelData : Hotel) (newHotelID : Int)
    (catData : Category) (catId roomId : Nat) (cu : CategoryUpdate)
    (roomData : Room) (ru : RoomUpdate) (hu : HotelUpdate) :
    roomCountInvariant (createHotel files body hotelData newHotelID)
    ∧ invariantOnOk (addCategory h files body catData)
    ∧ invariantOnOk (updateCategory h catId files body cu)
    ∧ invariantOnOk (deleteCategory h catId)
    ∧ invariantOnOk (addRoom h catId files body roomData)
    ∧ invariantOnOk (updateRoom h catId roomId files body ru)
    ∧ invariantOnOk (deleteRoom h catId roomId)
    ∧ roomCountInvariant (updateHotel h files body hu) := by
  refine ⟨saveHotel_invariant _, ?_, ?_, ?_, ?_, ?_, ?_, saveHotel_invariant _⟩
  · unfold addCategory
    dsimp only
    split
    · exact trivial
    · exact saveHotel_invariant _
  · unfold updateCategory
    split
    · exact trivial
    · exact saveHotel_invariant _
  · unfold deleteCategory
    split
    · exact trivial
    · exact saveHotel_invariant _
  · unfold addRoom
    dsimp only
    split
    · exact trivial
    · split
      · exact trivial
      · exact saveHotel_invariant _
  · unfold updateRoom
    split
    · exact trivial
    · split
      · exact trivial
      · exact saveHotel_invariant _
  · unfold deleteRoom
    split
    · exact trivial
    · split
      · exact trivial
      · exact saveHotel_invariant _

theorem digit_toNat_le (c : Char) (h : c.isDigit = true) :
    c.toNat - '0'.toNat ≤ 9 := by
  simp [Char.isDigit] at h
  obtain ⟨h1, h2⟩ := h
  have h1' : (48 : UInt32).toNat ≤ c.val.toNat := h1
  have h2' : c.val.toNat ≤ (57 : UInt32).toNat := h2
  have h48 : (48 : UInt32).toNat = 48 := rfl
  have h57 : (57 : UInt32).toNat = 57 := rfl
  have hc : c.toNat = c.val.toNat := rfl
  have h0 : '0'.toNat = 48 := rfl
  omega

theorem parse_foldl_lt : ∀ (l : List Char) (a : Nat),
    (∀ c ∈ l, c.isDigit = true) →
    l.foldl (fun n c => n * 10 + (c.toNat - '0'.toNat)) a <
      (a + 1) * 10 ^ l.length
  | [], a, _ => by simp
  | c :: l, a, hd => by
    have hc := digit_toNat_le c (hd c (by simp))
    have hrest : ∀ x ∈ l, x.isDigit = true := fun x hx => hd x (by simp [hx])
    have h1 := parse_foldl_lt l (a * 10 + (c.toNat - '0'.toNat)) hrest
    have h2 : (a * 10 + (c.toNat - '0'.toNat) + 1) * 10 ^ l.length ≤
        (a + 1) * 10 ^ (l.length + 1) := by
      have hm : a * 10 + (c.toNat - '0'.toNat) + 1 ≤ (a + 1) * 10 := by omega
      calc (a * 10 + (c.toNat - '0'.toNat) + 1) * 10 ^ l.length
          ≤ ((a + 1) * 10) * 10 ^ l.length := Nat.mul_le_mul_right _ hm
        _ = (a + 1) * 10 ^ (l.length + 1) := by ring
    simp only [List.foldl_cons, List.length_cons]
    exact lt_of_lt_of_le h1 h2

theorem sliceLast_data_length (n : Nat) (s : String) :
    (sliceLast n s).data.length ≤ n := by
  show (s.data.drop (s.data.length - n)).length ≤ n
  rw [List.length_drop]
  omega

theorem parseIntOpt_le (s : String) (v : Nat) (hlen : s.data.length ≤ 2)
    (h : parseIntOpt s = some v) : v ≤ 99 := by
  simp only [parseIntOpt] at h
  split at h
  · exact absurd h (by simp)
  · have hv := Option.some.inj h
    have hd : ∀ c ∈ s.data.takeWhile Char.isDigit, c.isDigit = true :=
      fun c hc => List.mem_takeWhile_imp hc
    have hlt := parse_foldl_lt (s.data.takeWhile Char.isDigit) 0 hd
    have hlen2 : (s.data.takeWhile Char.isDigit).length ≤ 2 :=
      le_trans (List.takeWhile_sublist _).length_le hlen
    have hpow : (10 : Nat) ^ (s.data.takeWhile Char.isDigit).length ≤ 10 ^ 2 :=
      Nat.pow_le_pow_right (by omega) hlen2
    simp only [one_mul] at hlt
    omega

theorem serialScanStep_le (a : Nat) (b : Booking) (ha : a ≤ 99) :
    serialScanStep a b ≤ 99 := by
  unfold serialScanStep
  split
  · rename_i no hno
    split
    · split
      · rename_i v hp
        have hv : v ≤ 99 := parseIntOpt_le _ v (sliceLast_data_length 2 no) hp
        split <;> omega
      · exact ha
    · exact ha
  · exact ha

theorem foldl_serialScanStep_le : ∀ (l : List Booking) (a : Nat), a ≤ 99 →
    l.foldl serialScanStep a ≤ 99
  | [], _, ha => ha
  | b :: l, a, ha => foldl_serialScanStep_le l _ (serialScanStep_le a b ha)

theorem maxTodaySerial_le_99 (d : Date) (db : List Booking) :
    maxTodaySerial d db ≤ 99 :=
  foldl_serialScanStep_le _ 0 (by omega)

theorem padStartZeros_length (w : Nat) (s : String) :
    (padStartZeros w s).length = max w s.length := by
  unfold padStartZeros
  split
  · rw [String.length_append]
    show (List.replicate (w - s.length) '0').length + s.length = max w s.length
    rw [List.length_replicate]
    omega
  · omega

theorem padStartZeros_two_digits :
    ∀ n < 100, (padStartZeros 2 (Nat.repr n)).length = 2 := by decide

theorem generateBookingNo_ne_empty (d : Date) (db : List Booking) :
    generateBookingNo d db ≠ "" := by
  intro h
  have hlen := congrArg String.length h
  rw [generateBookingNo, String.length_append, padStartZeros_length] at hlen
  have h2 : 2 ≤ max 2 (Nat.repr (maxTodaySerial d db + 1)).length :=
    le_max_left _ _
  have h0 : String.length "" = 0 := rfl
  omega

/-- C5 counterexample: with a stored booking numbered `26101199` (today's
serial 99), the generator emits `261011100` — a 3-digit serial, not the
`YYMMDD` + 2-digit-serial shape (length 8) the claim states, and not the
wrapped value `26101100` either. -/
theorem bookingNo_no_wrap :
    generateBookingNo d26 [bk99] = "261011100"
    ∧ ("261011100" : String).length ≠ 8
    ∧ generateBookingNo d26 [bk99] ≠ "26101100" := by decide

/-- C5 (amended): the generator emits the `YYMMDD` prefix followed by
`maxSerial + 1` zero-padded to AT LEAST two digits.  The scanned maximum
never exceeds 99 (only two trailing characters are parsed); while it is at
most 98 the serial is exactly two digits, and at 99 the generator emits the
3-digit serial `100` — it neither wraps nor fails. -/
theorem bookingNo_generator_amended (d : Date) (db : List Booking) :
    generateBookingNo d db =
      dateCode d ++ padStartZeros 2 (Nat.repr (maxTodaySerial d db + 1))
    ∧ maxTodaySerial d db ≤ 99
    ∧ (maxTodaySerial d db ≤ 98 →
        (generateBookingNo d db).length = (dateCode d).length + 2)
    ∧ (maxTodaySerial d db = 99 →
        generateBookingNo d db = dateCode d ++ "100") := by
  refine ⟨rfl, maxTodaySerial_le_99 d db, ?_, ?_⟩
  · intro h
    have h2 : (padStartZeros 2 (Nat.repr (maxTodaySerial d db + 1))).length = 2 :=
      padStartZeros_two_digits _ (by omega)
    rw [generateBookingNo, String.length_append, h2]
  · intro h
    rw [generateBookingNo, h]
    rfl

/-- Witness for C5's amended statement: a day at serial 5 yields the 8-char
`26101106`, and a day at serial 99 yields `261011100`. -/
theorem bookingNo_generator_amended_witness :
    ("26101106" : String).length = ("261011" : String).length + 2
    ∧ generateBookingNo d26 [bk99] = dateCode d26 ++ "100" := by
  constructor
  · have h := (bookingNo_generator_amended d26 [bk05]).2.2.1 (by decide)
    have he : generateBookingNo d26 [bk05] = "26101106" := by decide
    have hd : dateCode d26 = "261011" := by decide
    rw [he, hd] at h
    exact h
  · exact (bookingNo_generator_amended d26 [bk99]).2.2.2 (by decide)

/-- C6 (amended): only the ADD operations enforce name uniqueness.
`addCategory` rejects a category whose name already exists in the hotel, and
`addRoom` rejects a room whose name already exists in the located category,
both as a 409 conflict before any mutation (the error result carries no
modified aggregate); `updateCategory` and `updateRoom` perform no such check. -/
theorem add_ops_reject_duplicate_names (h : Hotel) (files : List String)
    (body : Option ImagesBody) (catData : Category) (catId : Nat)
    (roomData : Room) :
    (h.roomCategories.any (fun cat => cat.name == catData.name) = true →
      addCategory h files body catData = .error .conflict)
    ∧ (∀ category, h.roomCategories.find? (fun cat => cat.id == catId) =
          some category →
        category.roomNumbers.any (fun room => room.name == roomData.name) =
          true →
        addRoom h catId files body roomData = .error .conflict) := by
  constructor
  · intro hdup
    unfold addCategory
    dsimp only
    rw [if_pos hdup]
  · intro category hfind hdup
    unfold addRoom
    dsimp only
    rw [hfind]
    dsimp only
    rw [if_pos hdup]

/-- Witness for C6's amended statement: adding a second category "A" to
`hotelW`, and a second room "101" to its category, are both rejected. -/
theorem add_ops_reject_duplicate_names_witness :
    addCategory hotelW [] none
      { id := 9, name := "A", images := [], roomNumbers := [] } =
        .error .conflict
    ∧ addRoom hotelW 1 [] none
        { id := 9, name := "101", status := "available", images := [] } =
          .error .conflict := by
  have t := add_ops_reject_duplicate_names hotelW [] none
    { id := 9, name := "A", images := [], roomNumbers := [] } 1
    { id := 9, name := "101", status := "available", images := [] }
  exact ⟨t.1 (by decide), t.2 catW (by decide) (by decide)⟩

/-- C9: an order saved without a truthy `orderNumber` receives
`ORD-YYYYMMDD-` followed by (count of today's orders + 1) zero-padded to 4
digits; when the count query fails it instead receives `ORD-YYYYMMDD-`
followed by the last 4 digits of the current timestamp, and the save
proceeds in both cases. -/
theorem orderNumber_generation_spec (d : Date) (count timestampMs : Nat) :
    orderNumberAfterSave none d (.ok count) timestampMs =
      specOrderNumber d count
    ∧ orderNumberAfterSave (some "") d (.ok count) timestampMs =
        specOrderNumber d count
    ∧ orderNumberAfterSave none d (.error ()) timestampMs =
        specFallbackOrderNumber d timestampMs
    ∧ orderNumberAfterSave (some "") d (.error ()) timestampMs =
        specFallbackOrderNumber d timestampMs := by
  refine ⟨rfl, ?_, rfl, ?_⟩ <;>
    simp [orderNumberAfterSave, generateOrderNumber, specOrderNumber,
      specFallbackOrderNumber]

theorem mem_insertByCreatedAtDesc (a b : Booking) (l : List Booking) :
    a ∈ insertByCreatedAtDesc b l ↔ a = b ∨ a ∈ l := by
  induction l with
  | nil => simp [insertByCreatedAtDesc]
  | cons x xs ih =>
    rw [insertByCreatedAtDesc]
    split
    · simp
    · rw [List.mem_cons, ih, List.mem_cons]
      tauto

theorem mem_sortByCreatedAtDesc (a : Booking) (l : List Booking) :
    a ∈ sortByCreatedAtDesc l ↔ a ∈ l := by
  induction l with
  | nil => simp [sortByCreatedAtDesc]
  | cons x xs ih =>
    show a ∈ insertByCreatedAtDesc x (sortByCreatedAtDesc xs) ↔ _
    rw [mem_insertByCreatedAtDesc, ih, List.mem_cons]

theorem truthyStr_iff (o : Option String) :
    truthyStr o = true ↔ ∃ s, o = some s ∧ s ≠ "" := by
  cases o <;> simp [truthyStr]

theorem truthy_implies_mongo (o : Option String)
    (h : ∃ s, o = some s ∧ s ≠ "") : o.isSome = true ∧ o ≠ some "" := by
  obtain ⟨s, rfl, hs⟩ := h
  simp [hs]

theorem listing_filters_iff (b : Booking) :
    (mongoListingFilter b = true ∧ validRowFilter b = true) ↔
      (b.statusID ≠ 255 ∧ (∃ s, b.fullName = some s ∧ s ≠ "") ∧
       (∃ s, b.bookingNo = some s ∧ s ≠ "")) := by
  have hf := truthy_implies_mongo b.fullName
  have hb := truthy_implies_mongo b.bookingNo
  simp only [mongoListingFilter, validRowFilter, Bool.and_eq_true,
    bne_iff_ne, truthyStr_iff]
  constructor
  · intro hh
    tauto
  · rintro ⟨h1, hfE, hbE⟩
    obtain ⟨hf1, hf2⟩ := hf hfE
    obtain ⟨hb1, hb2⟩ := hb hbE
    tauto

/-- C10: every booking returned by `GetBookings` and (in its success case)
`GetBookingsByHotelId` has `statusID ≠ 255` and present, non-empty `fullName`
and `bookingNo`; membership is exactly "stored and passing those filters"
(and the hotel scope), so rows missing either field are silently omitted
rather than surfaced as per-row errors. -/
theorem booking_listings_filtered (db : List Booking) (hid : Int) :
    (∀ b : Booking, b ∈ getBookings db ↔
      b ∈ db ∧ b.statusID ≠ 255 ∧
      (∃ s, b.fullName = some s ∧ s ≠ "") ∧
      (∃ s, b.bookingNo = some s ∧ s ≠ ""))
    ∧ listingOk (getBookingsByHotelId db hid) (fun l =>
        ∀ b : Booking, b ∈ l ↔
          b ∈ db ∧ b.hotelID = hid ∧ b.statusID ≠ 255 ∧
          (∃ s, b.fullName = some s ∧ s ≠ "") ∧
          (∃ s, b.bookingNo = some s ∧ s ≠ "")) := by
  have hmem : ∀ (p : Booking → Bool) (b : Booking),
      b ∈ (sortByCreatedAtDesc (db.filter p)).filter validRowFilter ↔
        (b ∈ db ∧ p b = true) ∧ validRowFilter b = true := by
    intro p b
    rw [List.mem_filter, mem_sortByCreatedAtDesc, List.mem_filter]
  constructor
  · intro b
    rw [getBookings, hmem]
    rw [show ((b ∈ db ∧ mongoListingFilter b = true) ∧
        validRowFilter b = true) ↔
        (b ∈ db ∧ (mongoListingFilter b = true ∧ validRowFilter b = true))
      from by tauto]
    rw [listing_filters_iff]
  · unfold getBookingsByHotelId
    dsimp only
    split
    · exact trivial
    · intro b
      show b ∈ (sortByCreatedAtDesc (db.filter _)).filter validRowFilter ↔ _
      rw [hmem]
      simp only [Bool.and_eq_true, beq_iff_eq]
      rw [show ((b ∈ db ∧ b.hotelID = hid ∧ mongoListingFilter b = true) ∧
          validRowFilter b = true) ↔
          (b ∈ db ∧ b.hotelID = hid ∧
            (mongoListingFilter b = true ∧ validRowFilter b = true))
        from by tauto]
      rw [listing_filters_iff]

/-- C4: cancelling booking A soft-deletes it — the row stays (same list
length), is still found by id, carries `statusID = 255`, `canceledBy`,
`reason` and its original `bookingNo` — and afterwards the conflict check on
A's exact (hotel, room, category, dates) finds nothing, so creating booking B
with exactly A's triple and dates succeeds.  The hypotheses say A is the only
stored conflict for its own slot and that the freshly generated identifiers
are unused (the generators guarantee neither under the schema alone). -/
theorem cancel_then_rebook (db : List Booking) (id : Nat) (A : Booking)
    (cb rs : String) (today : Date) (nowMs : Int) (nextId : Nat)
    (hfind : db.find? (fun b => b.id == id) = some A)
    (hconf : ∀ b ∈ db, overlapMatches A.hotelID A.roomNumberID
        A.roomCategoryID A.checkInDate A.checkOutDate none b = true →
        b.id = A.id)
    (hdates : A.checkInDate < A.checkOutDate)
    (hhid : A.hotelID ≠ 0) (hrid : A.roomNumberID ≠ "")
    (hcid : A.roomCategoryID ≠ "")
    (hfreshNo : ∀ b ∈ db, b.bookingNo ≠
        some (generateBookingNo today (cancelApply db id (some cb) (some rs))))
    (hfreshSerial : ∀ b ∈ db,
        b.serialNo ≠ generateSerialNo (cancelApply db id (some cb) (some rs))) :
    updateStatusID db id (some cb) (some rs) =
      .ok (cancelApply db id (some cb) (some rs))
    ∧ (cancelApply db id (some cb) (some rs)).length = db.length
    ∧ (∃ A', (cancelApply db id (some cb) (some rs)).find?
          (fun b => b.id == id) = some A'
        ∧ A'.statusID = 255 ∧ A'.canceledBy = some cb ∧ A'.reason = some rs
        ∧ A'.bookingNo = A.bookingNo)
    ∧ checkBookingOverlap (cancelApply db id (some cb) (some rs))
        A.hotelID A.roomNumberID A.roomCategoryID A.checkInDate
        A.checkOutDate none = none
    ∧ (∃ db' B, createBooking (cancelApply db id (some cb) (some rs))
          today nowMs nextId (rebookInput A) = .ok (db', B)
        ∧ B.hotelID = A.hotelID ∧ B.roomNumberID = A.roomNumberID
        ∧ B.roomCategoryID = A.roomCategoryID
        ∧ B.checkInDate = A.checkInDate ∧ B.checkOutDate = A.checkOutDate) := by
  have hAid : A.id = id := by
    have h := List.find?_some hfind
    simpa using h
  have hcancel : cancelApply db id (some cb) (some rs) =
      db.map (fun b => if b.id == id then
        { b with statusID := 255, canceledBy := some cb, reason := some rs }
      else b) := rfl
  set f : Booking → Booking := fun b => if b.id == id then
      { b with statusID := 255, canceledBy := some cb, reason := some rs }
    else b with hfdef
  have hf_id : ∀ b : Booking, (f b).id = b.id := by
    intro b
    rw [hfdef]
    dsimp only
    split <;> rfl
  have hf_no : ∀ b : Booking, (f b).bookingNo = b.bookingNo := by
    intro b
    rw [hfdef]
    dsimp only
    split <;> rfl
  have hf_serial : ∀ b : Booking, (f b).serialNo = b.serialNo := by
    intro b
    rw [hfdef]
    dsimp only
    split <;> rfl
  have hfA : f A = { A with
      statusID := 255,
      canceledBy := some cb,
      reason := some rs } := by
    rw [hfdef]
    dsimp only
    rw [if_pos (by simp [hAid])]
  have hOv : checkBookingOverlap (db.map f) A.hotelID A.roomNumberID
      A.roomCategoryID A.checkInDate A.checkOutDate none = none := by
    rw [checkBookingOverlap, List.find?_eq_none]
    intro b' hb'
    rw [List.mem_map] at hb'
    obtain ⟨b, hb, rfl⟩ := hb'
    intro hm
    cases hc : (b.id == id) with
    | true =>
      rw [hfdef] at hm
      dsimp only at hm
      rw [hc] at hm
      simp [overlapMatches] at hm
    | false =>
      rw [hfdef] at hm
      dsimp only at hm
      rw [hc] at hm
      simp only [if_false, Bool.false_eq_true] at hm
      have hbA := hconf b hb hm
      rw [hbA, hAid] at hc
      simp at hc
  refine ⟨?_, ?_, ?_, ?_, ?_⟩
  · simp only [updateStatusID, hfind]
  · rw [hcancel, List.length_map]
  · refine ⟨f A, ?_, by rw [hfA], by rw [hfA], by rw [hfA], by rw [hfA]⟩
    rw [hcancel, List.find?_map]
    have hp : ((fun b : Booking => b.id == id) ∘ f) =
        (fun b : Booking => b.id == id) := by
      funext b
      simp [Function.comp, hf_id b]
    rw [hp, hfind]
    rfl
  · rw [hcancel]
    exact hOv
  · rw [hcancel] at hfreshNo hfreshSerial ⊢
    have hgenNe : generateBookingNo today (db.map f) ≠ "" :=
      generateBookingNo_ne_empty today (db.map f)
    have hVal : validateBooking {
        id := nextId, hotelID := A.hotelID, roomNumberID := A.roomNumberID,
        roomCategoryID := A.roomCategoryID, checkInDate := A.checkInDate,
        checkOutDate := A.checkOutDate, statusID := 1,
        bookingNo := some (generateBookingNo today (db.map f)),
        fullName := some "Guest", totalBill := 0, advancePayment := 0,
        duePayment := 0, serialNo := generateSerialNo (db.map f),
        canceledBy := none, reason := none, createdAt := nowMs } = true := by
      simp [validateBooking, truthyStr, hdates, hgenNe]
    have hUni : uniqueViolation (db.map f)
        (rebookSaved A (db.map f) today nowMs nextId) = false := by
      rw [uniqueViolation, Bool.or_eq_false_iff]
      constructor
      · rw [List.any_eq_false]
        intro x hx
        rw [List.mem_map] at hx
        obtain ⟨b, hb, rfl⟩ := hx
        have hxno : (rebookSaved A (db.map f) today nowMs nextId).bookingNo =
            some (generateBookingNo today (db.map f)) := rfl
        rw [hxno, hf_no b]
        simp only [beq_iff_eq]
        exact fun hcontra => hfreshNo b hb hcontra
      · rw [List.any_eq_false]
        intro x hx
        rw [List.mem_map] at hx
        obtain ⟨b, hb, rfl⟩ := hx
        have hxs : (rebookSaved A (db.map f) today nowMs nextId).serialNo =
            generateSerialNo (db.map f) := rfl
        rw [hxs, hf_serial b]
        simp only [beq_iff_eq]
        exact fun hcontra => hfreshSerial b hb hcontra
    have hT1 : truthyNum (some A.hotelID) = true := by simp [truthyNum, hhid]
    have hT2 : truthyStr (some A.roomNumberID) = true := by
      simp [truthyStr, hrid]
    have hT3 : truthyStr (some A.roomCategoryID) = true := by
      simp [truthyStr, hcid]
    refine ⟨db.map f ++ [rebookSaved A (db.map f) today nowMs nextId],
      rebookSaved A (db.map f) today nowMs nextId, ?_, rfl, rfl, rfl, rfl, rfl⟩
    unfold createBooking
    dsimp only [rebookInput, Option.getD, Option.isSome]
    simp only [hT1, hT2, hT3, hOv, hVal, Bool.and_self, Bool.and_true,
      Bool.true_and, Bool.not_true, Bool.false_eq_true, if_false]
    rw [show uniqueViolation (db.map f)
        (bookingPreSave true true {
          id := nextId, hotelID := A.hotelID, roomNumberID := A.roomNumberID,
          roomCategoryID := A.roomCategoryID, checkInDate := A.checkInDate,
          checkOutDate := A.checkOutDate, statusID := 1,
          bookingNo := some (generateBookingNo today (db.map f)),
          fullName := some "Guest", totalBill := 0, advancePayment := 0,
          duePayment := 0, serialNo := generateSerialNo (db.map f),
          canceledBy := none, reason := none, createdAt := nowMs }) = false
      from hUni]
    rfl

/-- Witness for C4: the single-booking state `[bkAlice]` cancelled by
"admin" for "guest request", then re-booked with exactly `bkAlice`'s room
and dates on `d26`. -/
theorem cancel_then_rebook_witness :
    updateStatusID [bkAlice] 1 (some "admin") (some "guest request") =
      .ok (cancelApply [bkAlice] 1 (some "admin") (some "guest request"))
    ∧ (cancelApply [bkAlice] 1 (some "admin") (some "guest request")).length
        = ([bkAlice] : List Booking).length
    ∧ (∃ A', (cancelApply [bkAlice] 1 (some "admin")
          (some "guest request")).find? (fun b => b.id == 1) = some A'
        ∧ A'.statusID = 255 ∧ A'.canceledBy = some "admin"
        ∧ A'.reason = some "guest request" ∧ A'.bookingNo = bkAlice.bookingNo)
    ∧ checkBookingOverlap (cancelApply [bkAlice] 1 (some "admin")
        (some "guest request")) bkAlice.hotelID bkAlice.roomNumberID
        bkAlice.roomCategoryID bkAlice.checkInDate bkAlice.checkOutDate none
        = none
    ∧ (∃ db' B, createBooking (cancelApply [bkAlice] 1 (some "admin")
          (some "guest request")) d26 0 2 (rebookInput bkAlice) = .ok (db', B)
        ∧ B.hotelID = bkAlice.hotelID
        ∧ B.roomNumberID = bkAlice.roomNumberID
        ∧ B.roomCategoryID = bkAlice.roomCategoryID
        ∧ B.checkInDate = bkAlice.checkInDate
        ∧ B.checkOutDate = bkAlice.checkOutDate) :=
  cancel_then_rebook [bkAlice] 1 bkAlice "admin" "guest request" d26 0 2
    (by decide) (by decide) (by decide) (by decide) (by decide) (by decide)
    (by decide) (by decide)

end HotelSeaShore
